import Mathlib

/-!
Verification development for the recursive DNS resolver (`src/resolve.py`).

The Python program is shallowly embedded: the network (dnspython message
codec + UDP transport) is a parameter `Net` mapping a server address and a
query (name, rdata type code) to an outcome; the resolver
`recursive_dns_lookup`, the result collector `collect_results` and the
cached CLI loop of `main` are translated as pure Lean functions.  Because
the Python recursion is unbounded (alias and referral chains), the Lean
embedding carries an explicit fuel parameter; exhausting fuel yields the
artificial outcome `outOfFuel`, which no theorem below identifies with a
behaviour of the program.  Every function additionally returns the number
of UDP queries it issued (each `dns.query.udp` call counts one, whether or
not it times out), so that claims about servers being tried or skipped and
about cache hits issuing no network traffic are expressible.
-/

/-- A resource record as seen by the Python code: its numeric rdata type
code (`rdtype`), its presentation string (`str(record)` in Python), and —
meaningful only when `rdtype = 15` — the MX `preference` and the string
form of the MX `exchange`.  (In dnspython only MX rdata carries the last
two attributes; the Python code reads them only after checking
`rdtype == 15`, and the embedding does the same.) -/
structure RRecord where
  rdtype : Nat
  text : String
  preference : Nat := 0
  exchange : String := ""
deriving DecidableEq, Repr

/-- A resource-record set (one element of a section list): its owner name
(`str(rrset.name)`), its records in order, and the presentation text of the
whole set (`str(rrset)` in Python), which the glue-extraction heuristic
tokenizes. -/
structure RRSet where
  oname : String
  records : List RRecord
  text : String
deriving DecidableEq, Repr

/-- A decoded DNS response, as produced by the message codec: the answer
and additional sections (the authority section is never consumed by the
program and is omitted). -/
structure Response where
  answer : List RRSet
  additional : List RRSet
deriving DecidableEq, Repr

/-- The outcome of one `dns.query.udp(query, server, 3)` call: the server
timed out (`dns.exception.Timeout`), the reply could not be turned into a
usable `Response` (any other exception raised by the codec / transport),
or a decoded response. -/
inductive QueryResult where
  | timeout
  | decodeError
  | response (r : Response)
deriving DecidableEq, Repr

/-- The network model: what one UDP round-trip to `server` for the query
built from `(qname, qtype)` yields.  Deterministic and static, matching
the spec's "static hierarchy" reading. -/
def Net : Type := String → String → Nat → QueryResult

/-- Result of the Python `recursive_dns_lookup`: `notFound` is Python's
`None` (explicit base-case return or falling off the end of the function),
`found r` is a returned response, `raised` is an uncaught exception
propagating out of the call, and `outOfFuel` is the embedding artifact for
exhausted fuel. -/
inductive RRes where
  | notFound
  | found (r : Response)
  | raised
  | outOfFuel
deriving DecidableEq, Repr

/-- The 13 hard-coded root server addresses (`ROOT_SERVERS` in the
source). -/
def ROOT_SERVERS : List String :=
  ["198.41.0.4", "199.9.14.201", "192.33.4.12", "199.7.91.13",
   "192.203.230.10", "192.5.5.241", "192.112.36.4", "198.97.190.53",
   "192.36.148.17", "192.58.128.30", "193.0.14.129", "199.7.83.42",
   "202.12.27.33"]

/-- Python `s[:-1]`: drop the final character (the comment in the source
says "Removes the period at the end", but the slice drops the last
character of any record string). -/
def stripLast (s : String) : String := s.dropRight 1

/-- Accumulator pass over the character list for `pySplit`: `acc` holds
the (reversed) characters of the token being read. -/
def pySplitAux : List Char → List Char → List String
  | [], acc => if acc = [] then [] else [String.mk acc.reverse]
  | c :: cs, acc =>
    if c.isWhitespace then
      if acc = [] then pySplitAux cs []
      else String.mk acc.reverse :: pySplitAux cs []
    else pySplitAux cs (c :: acc)

/-- Python `str.split()` with no separator: split on runs of whitespace
and discard empty pieces. -/
def pySplit (s : String) : List String :=
  pySplitAux s.data []

/-- The glue-extraction heuristic applied to one additional-section record
set (lines 139–153 of the source): tokenize `str(rrset)`; for every token
equal to `"A"`, append the LAST token of the whole text to the address
list. -/
def glueOfText (t : String) : List String :=
  let elems := pySplit t
  elems.filterMap (fun e => if e = "A" then some (elems.getLastD "") else none)

/-- All glue addresses extracted from an additional section
(`ip_addresses` in the source): concatenation over its record sets. -/
def glueOfAdditional (add : List RRSet) : List String :=
  add.flatMap (fun rs => glueOfText rs.text)

/-- The outcome of scanning a response's answer records (the nested `for`
loops at lines 117–130): either the scan finished with no usable step,
leaving the loop variable `target_name` at its final mutated value, or a
CNAME triggered a restart with the given new name, or a record of the
requested type matched. -/
inductive ScanOutcome where
  | noStep (finalName : String)
  | cname (newName : String)
  | matched
deriving DecidableEq, Repr

/-- The answer scan over the flattened record list.  Faithful to the
source: `target_name` is reassigned to `str(record)[:-1]` for EVERY record
scanned, BEFORE its type is inspected; a record whose type differs from
`qtype` and from 5 is skipped; a CNAME (type 5) that is not the requested
type stops the scan with the restart name; a record of the requested type
stops the scan as a match. -/
def scanRecords (qtype : Nat) : String → List RRecord → ScanOutcome
  | tname, [] => .noStep tname
  | _, rec :: rest =>
    let tname2 := stripLast rec.text
    if rec.rdtype ≠ qtype then
      if rec.rdtype = 5 then .cname tname2
      else scanRecords qtype tname2 rest
    else .matched

/-- The `for server in root_servers_list` loop body of
`recursive_dns_lookup`, with the nested resolver call abstracted as
`resolve` (applied at one less fuel by the caller).  Arguments: the fixed
query name (the query is built once, before the loop, from the value
`target_name` had at entry), the requested type, the remaining servers,
and the current value of the mutable `target_name` variable.  Returns the
outcome and the number of UDP queries issued. -/
def serverLoopAux (net : Net)
    (resolve : String → Nat → List String → RRes × Nat)
    (qname : String) (qtype : Nat) :
    List String → String → RRes × Nat
  | [], _ => (.notFound, 0)
  | server :: rest, tname =>
    match net server qname qtype with
    | .timeout =>
      let (res, k) := serverLoopAux net resolve qname qtype rest tname
      (res, k + 1)
    | .decodeError => (.raised, 1)
    | .response qr =>
      if qr.answer = [] then
        if qr.additional = [] then
          let (res, k) := serverLoopAux net resolve qname qtype rest tname
          (res, k + 1)
        else
          let (res, k) := resolve tname qtype (glueOfAdditional qr.additional)
          (res, k + 1)
      else
        match scanRecords qtype tname (qr.answer.flatMap RRSet.records) with
        | .matched => (.found qr, 1)
        | .cname newName =>
          let (res, k) := resolve newName qtype ROOT_SERVERS
          (res, k + 1)
        | .noStep tname2 =>
          let (res, k) := serverLoopAux net resolve qname qtype rest tname2
          (res, k + 1)

/-- Python function `recursive_dns_lookup(target_name, qtype,
root_servers_list)` (lines 94–155): base case `None` on an empty server
list, otherwise one query is built from the entry value of `target_name`
and the server loop runs.  The fuel bounds the (unbounded, in Python)
recursion depth. -/
def recursive_dns_lookup (net : Net) :
    Nat → String → Nat → List String → RRes × Nat
  | 0, _, _, _ => (.outOfFuel, 0)
  | _ + 1, _, _, [] => (.notFound, 0)
  | fuel + 1, target_name, qtype, server :: rest =>
    serverLoopAux net (recursive_dns_lookup net fuel) target_name qtype
      (server :: rest) target_name

/-- Model of `dns.name.from_text`: dnspython normalizes a relative text
name by appending the root label, so the string form of the resulting
name carries a trailing dot. -/
def dns_name_from_text (s : String) : String :=
  if s.data.getLastD ' ' = '.' then s else s ++ "."

/-- Python function `lookup(target_name, qtype)` (lines 158–171):
delegate to `recursive_dns_lookup` starting from the root server set. -/
def lookup (net : Net) (fuel : Nat) (target_name : String) (qtype : Nat) :
    RRes × Nat :=
  recursive_dns_lookup net fuel target_name qtype ROOT_SERVERS

/-- One entry of a per-type result list built by `collect_results`: the
dict `{"name": answer, "alias": name}` of the CNAME branch (which stores
the whole rdata object), the dict `{"name": ..., "address": ...}` of the
A/AAAA branches, or the dict `{"name": ..., "preference": ...,
"exchange": ...}` of the MX branch. -/
inductive CEntry where
  | cnameE (nameRec : RRecord) (aliasName : String)
  | addrE (name : String) (address : String)
  | mxE (name : String) (preference : Nat) (exchange : String)
deriving DecidableEq, Repr

/-- The dictionary `full_response` returned by `collect_results`, as an
ordered association list from type-tag to record list (insertion order as
in the source). -/
def CollectedType : Type := List (String × List CEntry)

/-- Lines 46–51: every record of every answer record set of the CNAME
`lookup` response becomes a `{"name": answer, "alias": name}` entry — note
the absence of any rdata-type filter in this branch of the source. -/
def reshapeCnames (name : String) : Option Response → List CEntry
  | none => []
  | some r => r.answer.flatMap (fun rs =>
      rs.records.map (fun rec => CEntry.cnameE rec name))

/-- Lines 53–62: records of the A `lookup` response with `rdtype == 1`,
tagged with the owner name of their record set. -/
def reshapeA : Option Response → List CEntry
  | none => []
  | some r => r.answer.flatMap (fun rs =>
      rs.records.filterMap (fun rec =>
        if rec.rdtype = 1 then some (CEntry.addrE rs.oname rec.text)
        else none))

/-- Lines 64–73: records of the AAAA `lookup` response with
`rdtype == 28`. -/
def reshapeAAAA : Option Response → List CEntry
  | none => []
  | some r => r.answer.flatMap (fun rs =>
      rs.records.filterMap (fun rec =>
        if rec.rdtype = 28 then some (CEntry.addrE rs.oname rec.text)
        else none))

/-- Lines 75–85: records of the MX `lookup` response with `rdtype == 15`,
keeping preference and exchange. -/
def reshapeMX : Option Response → List CEntry
  | none => []
  | some r => r.answer.flatMap (fun rs =>
      rs.records.filterMap (fun rec =>
        if rec.rdtype = 15 then
          some (CEntry.mxE rs.oname rec.preference rec.exchange)
        else none))

/-- Bridge from a resolver outcome to the Python view at a call site of
`lookup`: `None` or a response on normal return, and `Except.error` when
an exception propagates (the artificial `outOfFuel` is also mapped to
`error`, so no theorem mistakes it for program behaviour). -/
def toOpt : RRes → Except Unit (Option Response)
  | .notFound => .ok none
  | .found r => .ok (some r)
  | .raised => .error ()
  | .outOfFuel => .error ()

/-- Python function `collect_results(name)` (lines 36–92): four `lookup` calls — CNAME(5),
A(1), AAAA(28), MX(15) — on `dns.name.from_text(name)`, each reshaped and
stored under its tag.  An exception propagating out of any `lookup` aborts
the whole collection (the remaining lookups never run); the query count is
accumulated either way. -/
def collect_results (net : Net) (fuel : Nat) (name : String) :
    Except Unit CollectedType × Nat :=
  let target_name := dns_name_from_text name
  let (r1, k1) := lookup net fuel target_name 5
  match toOpt r1 with
  | .error e => (.error e, k1)
  | .ok o1 =>
    let cnames := reshapeCnames name o1
    let (r2, k2) := lookup net fuel target_name 1
    match toOpt r2 with
    | .error e => (.error e, k1 + k2)
    | .ok o2 =>
      let arecords := reshapeA o2
      let (r3, k3) := lookup net fuel target_name 28
      match toOpt r3 with
      | .error e => (.error e, k1 + k2 + k3)
      | .ok o3 =>
        let aaaarecords := reshapeAAAA o3
        let (r4, k4) := lookup net fuel target_name 15
        match toOpt r4 with
        | .error e => (.error e, k1 + k2 + k3 + k4)
        | .ok o4 =>
          let mxrecords := reshapeMX o4
          (.ok [("CNAME", cnames), ("A", arecords),
                ("AAAA", aaaarecords), ("MX", mxrecords)],
           k1 + k2 + k3 + k4)

/-- The process-wide `CACHE_SYSTEM` dictionary, as an association list
from the exact user-typed name string to its collected result. -/
def Cache : Type := List (String × CollectedType)

/-- The per-name loop of `main` (lines 197–207): for each requested name,
print from the cache on a hit, otherwise collect, store, and print.
Returns the sequence of results handed to `print_results`, the final
cache, and the total number of UDP queries issued; an exception from
`collect_results` aborts the run. -/
def main_process (net : Net) (fuel : Nat) :
    List String → Cache → Except Unit (List CollectedType × Cache × Nat)
  | [], cache => .ok ([], cache, 0)
  | n :: rest, cache =>
    match cache.lookup n with
    | some r =>
      match main_process net fuel rest cache with
      | .error e => .error e
      | .ok (outs, c, k) => .ok (r :: outs, c, k)
    | none =>
      match collect_results net fuel n with
      | (.error e, _) => .error e
      | (.ok r, k1) =>
        match main_process net fuel rest ((n, r) :: cache) with
        | .error e => .error e
        | .ok (outs, c, k2) => .ok (r :: outs, c, k1 + k2)

/-- A query outcome after which the server loop moves on to the next
address: a timeout, a response with both sections of interest empty, or a
non-empty answer section none of whose records has the requested type or
type 5 (so the scan finishes without a usable step).  A referral (empty
answer, non-empty additional) and a CNAME hit are NOT of this kind: the
loop returns on them. -/
def fallsThrough (qtype : Nat) (q : QueryResult) : Prop :=
  q = .timeout ∨
  ∃ r, q = .response r ∧
    ((r.answer = [] ∧ r.additional = []) ∨
     (r.answer ≠ [] ∧
      ∀ rec ∈ r.answer.flatMap RRSet.records,
        rec.rdtype ≠ qtype ∧ rec.rdtype ≠ 5))

/-- Scenario network: the first listed server answers with a referral
whose additional-section text contains no standalone token `"A"`, so the
extracted glue set is empty; the second listed server would answer the
query directly, but the code never asks it. -/
def netEmptyGlue : Net := fun server _ _ =>
  if server = "1.1.1.1" then
    .response ⟨[], [⟨"ns.example.", [], "ns.example. 3600 IN NS foo.example."⟩]⟩
  else if server = "2.2.2.2" then
    .response ⟨[⟨"example.com.", [⟨1, "7.7.7.7", 0, ""⟩], "t"⟩], []⟩
  else .timeout

/-- Scenario network: the first server returns an answer section whose
single record neither matches the requested type nor is a CNAME (a TXT
record, type 16, with presentation string "sometext."); the second server
returns a referral with glue `9.9.9.9`; the glue server answers only when
asked for the name "sometext" (the mutated scanning variable) and times
out for the original name. -/
def netMutatedName : Net := fun server qname _ =>
  if server = "1.1.1.1" then
    .response ⟨[⟨"orig.", [⟨16, "sometext.", 0, ""⟩], "t"⟩], []⟩
  else if server = "2.2.2.2" then
    .response ⟨[], [⟨"ns.", [], "ns. 3600 IN A 9.9.9.9"⟩]⟩
  else if server = "9.9.9.9" ∧ qname = "sometext" then
    .response ⟨[⟨"sometext.", [⟨1, "5.6.7.8", 0, ""⟩], "t2"⟩], []⟩
  else .timeout

/-- Scenario network: the first server's reply cannot be decoded; the
second server answers the query with a matching record. -/
def netDecodeThenGood : Net := fun server _ _ =>
  if server = "1.1.1.1" then .decodeError
  else .response ⟨[⟨"x.", [⟨1, "7.7.7.7", 0, ""⟩], "t"⟩], []⟩

/-- Scenario network: the first root server, asked for type 5 (CNAME),
answers with an answer section holding an A record (type 1) followed by a
CNAME record (type 5); every other query times out. -/
def netMixedCnameAnswer : Net := fun server _ qtype =>
  if server = "198.41.0.4" ∧ qtype = 5 then
    .response ⟨[⟨"www.example.com.",
      [⟨1, "1.2.3.4", 0, ""⟩, ⟨5, "real.example.com.", 0, ""⟩], "t"⟩], []⟩
  else .timeout

/-- Scenario network: the first root server, asked for the name "www.",
answers with a single CNAME record pointing at "target."; every other
query (in particular every query for the alias target) times out. -/
def netCnameRestart : Net := fun server qname _ =>
  if server = "198.41.0.4" ∧ qname = "www." then
    .response ⟨[⟨"www.", [⟨5, "target.", 0, ""⟩], "t"⟩], []⟩
  else .timeout

/-- Scenario network: every server times out. -/
def netAllTimeout : Net := fun _ _ _ => .timeout

/-- The `Option`-valued view of a normally returned resolver outcome
(Python `None` versus a response); `raised` and `outOfFuel` have no such
view and are mapped to `none` (they are excluded by hypothesis wherever
this matters). -/
def optOf : RRes → Option Response
  | .notFound => none
  | .found r => some r
  | .raised => none
  | .outOfFuel => none

/-- The collected result of a name for which all four lookups found
nothing: all four tags map to the empty list. -/
def emptyCollected : CollectedType :=
  [("CNAME", []), ("A", []), ("AAAA", []), ("MX", [])]

theorem scanRecords_skip (qtype : Nat) (t : String) (rec : RRecord)
    (rest : List RRecord) (h1 : rec.rdtype ≠ qtype) (h2 : rec.rdtype ≠ 5) :
    scanRecords qtype t (rec :: rest) =
      scanRecords qtype (stripLast rec.text) rest := by
  simp [scanRecords, h1, h2]

theorem scanRecords_all_skip (qtype : Nat) :
    ∀ (recs : List RRecord), recs ≠ [] →
    (∀ r ∈ recs, r.rdtype ≠ qtype ∧ r.rdtype ≠ 5) →
    ∀ t, scanRecords qtype t recs =
      ScanOutcome.noStep (stripLast (recs.getLastD ⟨0, "", 0, ""⟩).text)
  | [], hne, _, _ => absurd rfl hne
  | [rec], _, hskip, t => by
    obtain ⟨h1, h2⟩ := hskip rec (by simp)
    simp [scanRecords, h1, h2]
  | rec :: rec2 :: rest, _, hskip, t => by
    obtain ⟨h1, h2⟩ := hskip rec (by simp)
    rw [scanRecords_skip qtype t rec (rec2 :: rest) h1 h2]
    rw [scanRecords_all_skip qtype (rec2 :: rest) (by simp)
      (fun r hr => hskip r (List.mem_cons_of_mem rec hr))]
    simp

theorem scanRecords_all_skip_ex (qtype : Nat) :
    ∀ (recs : List RRecord),
    (∀ r ∈ recs, r.rdtype ≠ qtype ∧ r.rdtype ≠ 5) →
    ∀ t, ∃ tn, scanRecords qtype t recs = ScanOutcome.noStep tn
  | [], _, t => ⟨t, rfl⟩
  | rec :: rest, hskip, t => by
    obtain ⟨h1, h2⟩ := hskip rec (by simp)
    rw [scanRecords_skip qtype t rec rest h1 h2]
    exact scanRecords_all_skip_ex qtype rest
      (fun r hr => hskip r (by simp [hr])) (stripLast rec.text)

theorem scanRecords_cname_first (qtype : Nat) :
    ∀ (pre : List RRecord) (c : RRecord) (post : List RRecord),
    (∀ r ∈ pre, r.rdtype ≠ qtype ∧ r.rdtype ≠ 5) →
    c.rdtype = 5 → qtype ≠ 5 →
    ∀ t, scanRecords qtype t (pre ++ c :: post) =
      ScanOutcome.cname (stripLast c.text)
  | [], c, post, _, hc, hq, t => by
    have h1 : (5 : Nat) ≠ qtype := fun h => hq h.symm
    simp [scanRecords, h1, hc]
  | rec :: pre, c, post, hpre, hc, hq, t => by
    obtain ⟨h1, h2⟩ := hpre rec (by simp)
    rw [List.cons_append,
      scanRecords_skip qtype t rec (pre ++ c :: post) h1 h2]
    exact scanRecords_cname_first qtype pre c post
      (fun r hr => hpre r (by simp [hr])) hc hq (stripLast rec.text)

theorem filterMap_if_eq_replicate (l : List String) (v : String) :
    l.filterMap (fun e => if e = "A" then some v else none) =
      List.replicate (l.count "A") v := by
  induction l with
  | nil => rfl
  | cons x xs ih =>
    by_cases hx : x = "A" <;>
      simp [List.filterMap_cons, hx, List.count_cons, ih, List.replicate_succ]

theorem serverLoopAux_fallsThrough (net : Net)
    (resolve : String → Nat → List String → RRes × Nat)
    (qname : String) (qtype : Nat) :
    ∀ (servers : List String),
    (∀ s ∈ servers, fallsThrough qtype (net s qname qtype)) →
    ∀ tname, serverLoopAux net resolve qname qtype servers tname =
      (RRes.notFound, servers.length) := by
  intro servers
  induction servers with
  | nil => intro _ tname; rfl
  | cons s rest ih =>
    intro h tname
    have hrest : ∀ x ∈ rest, fallsThrough qtype (net x qname qtype) :=
      fun x hx => h x (by simp [hx])
    rcases h s (by simp) with htim | ⟨r, hr, hcase⟩
    · simp [serverLoopAux, htim, ih hrest]
    · rcases hcase with ⟨ha, hadd⟩ | ⟨hane, hskip⟩
      · simp [serverLoopAux, hr, ha, hadd, ih hrest]
      · obtain ⟨tn, hscan⟩ :=
          scanRecords_all_skip_ex qtype (r.answer.flatMap RRSet.records)
            hskip tname
        simp [serverLoopAux, hr, hane, hscan, ih hrest]

/-- C1 (counterexample): with `netEmptyGlue`, the resolver is called on
two servers; the first returns a referral whose extracted glue set is
empty, and the resolver returns NotFound after a single query — the
second server, which would have answered, is never tried.  This refutes
the claim that NotFound is returned only after every address in the list
has been tried, and that a referral with an empty glue set falls through
to the next server address. -/
theorem claim1_counterexample :
    recursive_dns_lookup netEmptyGlue 2 "example.com." 1
        ["1.1.1.1", "2.2.2.2"] = (RRes.notFound, 1) ∧
    recursive_dns_lookup netEmptyGlue 2 "example.com." 1 ["2.2.2.2"] =
      (RRes.found ⟨[⟨"example.com.", [⟨1, "7.7.7.7", 0, ""⟩], "t"⟩], []⟩,
       1) :=
  ⟨rfl, rfl⟩

/-- C1 (amended): if every server in the list yields a fall-through
outcome — a timeout, a response with empty answer and empty additional
sections, or a non-empty answer none of whose records matches the
requested type or is a CNAME — then the resolver queries every address in
order (one UDP query per address) and only then returns NotFound.  A
referral (empty answer, non-empty additional) or a CNAME hit instead
returns the nested resolution's outcome immediately, even when that
outcome is NotFound. -/
theorem claim1_amended_thm (net : Net) (fuel : Nat) (qname : String)
    (qtype : Nat) (servers : List String)
    (h : ∀ s ∈ servers, fallsThrough qtype (net s qname qtype)) :
    recursive_dns_lookup net (fuel + 1) qname qtype servers =
      (RRes.notFound, servers.length) := by
  cases servers with
  | nil => rfl
  | cons s rest =>
    show serverLoopAux net (recursive_dns_lookup net fuel) qname qtype
        (s :: rest) qname = _
    exact serverLoopAux_fallsThrough net _ qname qtype (s :: rest) h qname

/-- C1 (witness): on the all-timeout network both listed servers are
queried before NotFound. -/
theorem claim1_witness :
    recursive_dns_lookup netAllTimeout 1 "x." 1 ["1.1.1.1", "2.2.2.2"] =
      (RRes.notFound, 2) :=
  claim1_amended_thm netAllTimeout 0 "x." 1 ["1.1.1.1", "2.2.2.2"]
    (fun _ _ => Or.inl rfl)

/-- C3: while resolving `(qname, qtype)` with `qtype ≠ 5`, if the first
queried server's answer section (flattened, in scan order) consists of
records that neither match `qtype` nor are CNAMEs, followed by a CNAME
record `c`, then the call returns exactly the outcome of a nested
resolution that starts from the full hard-coded root server set
`ROOT_SERVERS` (not from the referring server's list), with the CNAME
record's target — its presentation string with the trailing dot
stripped — as the new query name and `qtype` unchanged; one UDP query is
added for the referring server. -/
theorem claim3_thm (net : Net) (fuel : Nat) (qname : String) (qtype : Nat)
    (s : String) (rest : List String) (qr : Response)
    (pre post : List RRecord) (c : RRecord)
    (hnet : net s qname qtype = .response qr)
    (hflat : qr.answer.flatMap RRSet.records = pre ++ c :: post)
    (hpre : ∀ r ∈ pre, r.rdtype ≠ qtype ∧ r.rdtype ≠ 5)
    (hc : c.rdtype = 5) (hq : qtype ≠ 5) :
    recursive_dns_lookup net (fuel + 1) qname qtype (s :: rest) =
      ((recursive_dns_lookup net fuel (stripLast c.text) qtype
          ROOT_SERVERS).1,
       (recursive_dns_lookup net fuel (stripLast c.text) qtype
          ROOT_SERVERS).2 + 1) := by
  have hane : qr.answer ≠ [] := by
    intro h0
    rw [h0] at hflat
    simp at hflat
  have hscan : scanRecords qtype qname (qr.answer.flatMap RRSet.records) =
      ScanOutcome.cname (stripLast c.text) := by
    rw [hflat]
    exact scanRecords_cname_first qtype pre c post hpre hc hq qname
  show serverLoopAux net (recursive_dns_lookup net fuel) qname qtype
      (s :: rest) qname = _
  simp [serverLoopAux, hnet, hane, hscan]

/-- C3 (witness): the first root server answers the query for "www." with
a CNAME to "target."; resolution restarts from all 13 roots for "target"
(every such query times out), so the whole call returns NotFound after
1 + 13 queries. -/
theorem claim3_witness :
    recursive_dns_lookup netCnameRestart 2 "www." 1 ["198.41.0.4"] =
      (RRes.notFound, 14) := by
  have h := claim3_thm netCnameRestart 1 "www." 1 "198.41.0.4" []
    ⟨[⟨"www.", [⟨5, "target.", 0, ""⟩], "t"⟩], []⟩ [] []
    ⟨5, "target.", 0, ""⟩ rfl rfl (by simp) rfl (by decide)
  exact h.trans (by rfl)

/-- C4 (counterexample): with `netMutatedName`, the first server's answer
holds a single TXT record with presentation string "sometext.", which the
scan uses to overwrite the query-name variable; the second server then
returns a referral, and the resolver recurses with name "sometext" — not
the original "orig." — which is why it finds the record that the glue
server serves only for "sometext" (first conjunct), while recursing with
the unchanged original name over the same glue set would have found
nothing (second conjunct).  This refutes the claim that the referral
recursion always carries the name originally passed in. -/
theorem claim4_counterexample :
    recursive_dns_lookup netMutatedName 2 "orig." 1
        ["1.1.1.1", "2.2.2.2"] =
      (RRes.found
        ⟨[⟨"sometext.", [⟨1, "5.6.7.8", 0, ""⟩], "t2"⟩], []⟩, 3) ∧
    recursive_dns_lookup netMutatedName 1 "orig." 1
        (glueOfAdditional [⟨"ns.", [], "ns. 3600 IN A 9.9.9.9"⟩]) =
      (RRes.notFound, 1) :=
  ⟨rfl, rfl⟩

/-- C4 (amended): when the FIRST queried server returns a response with
an empty answer section and a non-empty additional section, the resolver
makes exactly one recursive call, with servers equal to the glue
addresses extracted from the additional section, the query name and type
unchanged, and returns that call's outcome (one UDP query added).  In
general the name passed down is the current value of the scanning
variable, which equals the original name only when no answer record was
scanned at an earlier server of the same call. -/
theorem claim4_amended_thm (net : Net) (fuel : Nat) (qname : String)
    (qtype : Nat) (s : String) (rest : List String) (qr : Response)
    (hnet : net s qname qtype = .response qr)
    (ha : qr.answer = []) (hadd : qr.additional ≠ []) :
    recursive_dns_lookup net (fuel + 1) qname qtype (s :: rest) =
      ((recursive_dns_lookup net fuel qname qtype
          (glueOfAdditional qr.additional)).1,
       (recursive_dns_lookup net fuel qname qtype
          (glueOfAdditional qr.additional)).2 + 1) := by
  show serverLoopAux net (recursive_dns_lookup net fuel) qname qtype
      (s :: rest) qname = _
  simp [serverLoopAux, hnet, ha, hadd]

/-- C4 (witness): a referral from the first queried server recurses once
over the extracted glue address with the name unchanged; the glue server
times out for that name, so the call returns NotFound after two
queries. -/
theorem claim4_witness :
    recursive_dns_lookup netMutatedName 2 "orig." 1 ["2.2.2.2"] =
      (RRes.notFound, 2) := by
  have h := claim4_amended_thm netMutatedName 1 "orig." 1 "2.2.2.2" []
    ⟨[], [⟨"ns.", [], "ns. 3600 IN A 9.9.9.9"⟩]⟩ rfl rfl (by simp)
  exact h.trans (by rfl)

/-- C5 (counterexample): with `netDecodeThenGood`, the first server's
reply cannot be decoded; the exception propagates out of the resolver
after a single query (first conjunct) even though the second server would
have answered (second conjunct).  This refutes the claim that a decoding
failure is handled like a non-answering server, skipped, and never
surfaced to the caller. -/
theorem claim5_counterexample :
    recursive_dns_lookup netDecodeThenGood 1 "x." 1
        ["1.1.1.1", "2.2.2.2"] = (RRes.raised, 1) ∧
    recursive_dns_lookup netDecodeThenGood 1 "x." 1 ["2.2.2.2"] =
      (RRes.found ⟨[⟨"x.", [⟨1, "7.7.7.7", 0, ""⟩], "t"⟩], []⟩, 1) :=
  ⟨rfl, rfl⟩

/-- C5 (amended): only the per-server timeout is handled like a
non-answering server.  A timeout at the head server makes the loop
continue with the remaining addresses (one query added); a reply that
fails to decode instead raises, aborting the whole resolution after that
single query — the failure IS surfaced to the caller and the remaining
addresses are never tried. -/
theorem claim5_amended_thm (net : Net) (fuel : Nat) (qname : String)
    (qtype : Nat) (s : String) (rest : List String) :
    (net s qname qtype = .decodeError →
      recursive_dns_lookup net (fuel + 1) qname qtype (s :: rest) =
        (RRes.raised, 1)) ∧
    (net s qname qtype = .timeout →
      recursive_dns_lookup net (fuel + 1) qname qtype (s :: rest) =
        ((serverLoopAux net (recursive_dns_lookup net fuel) qname qtype
            rest qname).1,
         (serverLoopAux net (recursive_dns_lookup net fuel) qname qtype
            rest qname).2 + 1)) := by
  constructor
  · intro h
    show serverLoopAux net (recursive_dns_lookup net fuel) qname qtype
        (s :: rest) qname = _
    simp [serverLoopAux, h]
  · intro h
    show serverLoopAux net (recursive_dns_lookup net fuel) qname qtype
        (s :: rest) qname = _
    simp [serverLoopAux, h]

/-- C5 (witness): a decode failure at the head server yields `raised`
after one query; a timeout at the head server skips to the next server
(two queries, NotFound on the all-timeout network). -/
theorem claim5_witness :
    recursive_dns_lookup netDecodeThenGood 1 "y." 1 ["1.1.1.1"] =
      (RRes.raised, 1) ∧
    recursive_dns_lookup netAllTimeout 1 "y." 1 ["1.1.1.1", "2.2.2.2"] =
      (RRes.notFound, 2) := by
  constructor
  · exact (claim5_amended_thm netDecodeThenGood 0 "y." 1 "1.1.1.1" []).1 rfl
  · exact ((claim5_amended_thm netAllTimeout 0 "y." 1 "1.1.1.1"
      ["2.2.2.2"]).2 rfl).trans (by rfl)

/-- C7: for every network, every name and every record type, calling the
delegation resolver with an empty server list returns NotFound
immediately and issues zero UDP queries (the recursion base case; the
query is never built and no send is performed). -/
theorem claim7_thm (net : Net) (fuel : Nat) (name : String)
    (qtype : Nat) :
    recursive_dns_lookup net (fuel + 1) name qtype [] =
      (RRes.notFound, 0) :=
  rfl

/-- C10: glue extraction from one additional-section record set is fully
characterized by the token scan of its presentation text: the result is
the LAST token of the whole text, repeated once per token exactly equal
to "A" (first conjunct).  Consequently a set with two A records
contributes only its final address, twice (second conjunct); an AAAA set
contributes nothing (third conjunct); and a set whose text contains "A"
as a standalone token contributes its last token even when that token is
not an IPv4 address (fourth conjunct). -/
theorem claim10_thm :
    (∀ t : String, glueOfText t =
      List.replicate ((pySplit t).count "A") ((pySplit t).getLastD "")) ∧
    glueOfText
        "ns1.example.com. 3600 IN A 1.2.3.4\nns1.example.com. 3600 IN A 5.6.7.8" =
      ["5.6.7.8", "5.6.7.8"] ∧
    glueOfText "ns1.example.com. 3600 IN AAAA 2001:db8::1" = [] ∧
    glueOfText "weird. 60 IN TXT A not-an-ip" = ["not-an-ip"] :=
  ⟨fun t => filterMap_if_eq_replicate (pySplit t) ((pySplit t).getLastD ""),
   by rfl, by rfl, by rfl⟩

/-- C2 (counterexample): with `netMixedCnameAnswer`, the CNAME lookup's
response carries an A record (type 1) before the CNAME record in its
answer section; `collect_results` puts BOTH records into the CNAME list —
the entry built from the type-1 record included — so the CNAME list is
not filtered by type code 5 as the claim states (the A/AAAA/MX lists of
this run are empty because those lookups find nothing). -/
theorem claim2_counterexample :
    collect_results netMixedCnameAnswer 1 "www.example.com" =
      (.ok [("CNAME",
          [CEntry.cnameE ⟨1, "1.2.3.4", 0, ""⟩ "www.example.com",
           CEntry.cnameE ⟨5, "real.example.com.", 0, ""⟩ "www.example.com"]),
        ("A", []), ("AAAA", []), ("MX", [])], 40) ∧
    (⟨1, "1.2.3.4", 0, ""⟩ : RRecord).rdtype ≠ 5 :=
  ⟨rfl, by decide⟩

/-- C2 (amended): the A, AAAA and MX lists are built by exact numeric
type-code filtering (1, 28, 15 respectively) over the answer section of
the corresponding lookup response, each entry carrying its record set's
owner name; the CNAME list, however, contains an entry for EVERY record
of every answer record set of the CNAME-lookup response, with no type
filtering at all, paired with the user-supplied name as the alias. -/
theorem claim2_amended_thm :
    (∀ (r : Response) (name aliasN : String) (rec : RRecord),
      CEntry.cnameE rec aliasN ∈ reshapeCnames name (some r) ↔
        (aliasN = name ∧ ∃ rs ∈ r.answer, rec ∈ rs.records)) ∧
    (∀ (r : Response) (n a : String),
      CEntry.addrE n a ∈ reshapeA (some r) ↔
        ∃ rs ∈ r.answer, rs.oname = n ∧
          ∃ rec ∈ rs.records, rec.rdtype = 1 ∧ rec.text = a) ∧
    (∀ (r : Response) (n a : String),
      CEntry.addrE n a ∈ reshapeAAAA (some r) ↔
        ∃ rs ∈ r.answer, rs.oname = n ∧
          ∃ rec ∈ rs.records, rec.rdtype = 28 ∧ rec.text = a) ∧
    (∀ (r : Response) (n : String) (p : Nat) (e : String),
      CEntry.mxE n p e ∈ reshapeMX (some r) ↔
        ∃ rs ∈ r.answer, rs.oname = n ∧
          ∃ rec ∈ rs.records, rec.rdtype = 15 ∧
            rec.preference = p ∧ rec.exchange = e) := by
  refine ⟨?_, ?_, ?_, ?_⟩
  · intro r name aliasN rec
    simp only [reshapeCnames, List.mem_flatMap, List.mem_map,
      CEntry.cnameE.injEq]
    aesop
  · intro r n a
    simp only [reshapeA, List.mem_flatMap, List.mem_filterMap,
      Option.ite_none_right_eq_some, Option.some.injEq, CEntry.addrE.injEq]
    aesop
  · intro r n a
    simp only [reshapeAAAA, List.mem_flatMap, List.mem_filterMap,
      Option.ite_none_right_eq_some, Option.some.injEq, CEntry.addrE.injEq]
    aesop
  · intro r n p e
    simp only [reshapeMX, List.mem_flatMap, List.mem_filterMap,
      Option.ite_none_right_eq_some, Option.some.injEq, CEntry.mxE.injEq]
    aesop

/-- C6: if processing the single name `n` from some cache state succeeds
with printed results `outs`, final cache `c1` and `k` UDP queries, then
processing `[n, n]` from the same state prints the identical result
twice, ends in the SAME cache `c1` (the cache is written at most once for
the string `n`), and still issues only `k` queries — the second,
consecutive lookup of the identical string is served from the cache with
no network traffic. -/
theorem claim6_thm (net : Net) (fuel : Nat) (n : String) (cache : Cache)
    (outs : List CollectedType) (c1 : Cache) (k : Nat)
    (h : main_process net fuel [n] cache = .ok (outs, c1, k)) :
    main_process net fuel [n, n] cache = .ok (outs ++ outs, c1, k) := by
  cases hc : cache.lookup n with
  | some r =>
    simp only [main_process, hc, Except.ok.injEq, Prod.mk.injEq] at h
    obtain ⟨h1, h2, h3⟩ := h
    subst h1 h2 h3
    simp [main_process, hc]
  | none =>
    rcases hcr : collect_results net fuel n with ⟨e, k1⟩
    cases e with
    | error e0 =>
      simp [main_process, hc, hcr] at h
    | ok r =>
      simp only [main_process, hc, hcr, Except.ok.injEq, Prod.mk.injEq] at h
      obtain ⟨h1, h2, h3⟩ := h
      subst h1 h2 h3
      simp [main_process, hc, hcr, List.lookup]

/-- C6 (witness): on the all-timeout network, looking the name "a" up
twice prints the all-empty collected result twice, caches it once, and
issues 52 queries in total (4 record types × 13 root servers), all during
the first lookup. -/
theorem claim6_witness :
    main_process netAllTimeout 1 ["a", "a"] [] =
      .ok ([emptyCollected, emptyCollected], [("a", emptyCollected)], 52) :=
  claim6_thm netAllTimeout 1 "a" [] [emptyCollected]
    [("a", emptyCollected)] 52 (by rfl)

/-- C8: whenever `collect_results` returns normally, its result has
exactly the four type-tags "CNAME", "A", "AAAA", "MX" as keys, in that
order; and for each tag, if the corresponding delegation-resolver call
returned NotFound, the tag is still present and maps to the empty list
rather than signalling an error. -/
theorem claim8_thm (net : Net) (fuel : Nat) (name : String)
    (res : CollectedType) (k : Nat)
    (h : collect_results net fuel name = (.ok res, k)) :
    res.map Prod.fst = ["CNAME", "A", "AAAA", "MX"] ∧
    ((lookup net fuel (dns_name_from_text name) 5).1 = RRes.notFound →
      res.lookup "CNAME" = some []) ∧
    ((lookup net fuel (dns_name_from_text name) 1).1 = RRes.notFound →
      res.lookup "A" = some []) ∧
    ((lookup net fuel (dns_name_from_text name) 28).1 = RRes.notFound →
      res.lookup "AAAA" = some []) ∧
    ((lookup net fuel (dns_name_from_text name) 15).1 = RRes.notFound →
      res.lookup "MX" = some []) := by
  rcases hl1 : lookup net fuel (dns_name_from_text name) 5 with ⟨r1, k1⟩
  rcases hl2 : lookup net fuel (dns_name_from_text name) 1 with ⟨r2, k2⟩
  rcases hl3 : lookup net fuel (dns_name_from_text name) 28 with ⟨r3, k3⟩
  rcases hl4 : lookup net fuel (dns_name_from_text name) 15 with ⟨r4, k4⟩
  simp only [collect_results, hl1, hl2, hl3, hl4] at h
  cases ht1 : toOpt r1 with
  | error e =>
    simp only [ht1] at h
    exact absurd h (by simp)
  | ok o1 =>
    simp only [ht1] at h
    cases ht2 : toOpt r2 with
    | error e =>
      simp only [ht2] at h
      exact absurd h (by simp)
    | ok o2 =>
      simp only [ht2] at h
      cases ht3 : toOpt r3 with
      | error e =>
        simp only [ht3] at h
        exact absurd h (by simp)
      | ok o3 =>
        simp only [ht3] at h
        cases ht4 : toOpt r4 with
        | error e =>
          simp only [ht4] at h
          exact absurd h (by simp)
        | ok o4 =>
          simp only [ht4, Prod.mk.injEq, Except.ok.injEq] at h
          obtain ⟨hres, hk⟩ := h
          subst hres
          refine ⟨rfl, ?_, ?_, ?_, ?_⟩
          · intro hnf
            have hr1 : r1 = RRes.notFound := hnf
            subst hr1
            have ho1 : o1 = none := by
              simpa [toOpt] using ht1.symm
            subst ho1
            simp [List.lookup, reshapeCnames]
          · intro hnf
            have hr2 : r2 = RRes.notFound := hnf
            subst hr2
            have ho2 : o2 = none := by
              simpa [toOpt] using ht2.symm
            subst ho2
            simp [List.lookup, reshapeA]
          · intro hnf
            have hr3 : r3 = RRes.notFound := hnf
            subst hr3
            have ho3 : o3 = none := by
              simpa [toOpt] using ht3.symm
            subst ho3
            simp [List.lookup, reshapeAAAA]
          · intro hnf
            have hr4 : r4 = RRes.notFound := hnf
            subst hr4
            have ho4 : o4 = none := by
              simpa [toOpt] using ht4.symm
            subst ho4
            simp [List.lookup, reshapeMX]

/-- C8 (witness): on the all-timeout network every lookup of "a" returns
NotFound and the collected result is the four tags each mapping to the
empty list. -/
theorem claim8_witness :
    emptyCollected.map Prod.fst = ["CNAME", "A", "AAAA", "MX"] ∧
    ((lookup netAllTimeout 1 (dns_name_from_text "a") 5).1 =
        RRes.notFound → emptyCollected.lookup "CNAME" = some []) ∧
    ((lookup netAllTimeout 1 (dns_name_from_text "a") 1).1 =
        RRes.notFound → emptyCollected.lookup "A" = some []) ∧
    ((lookup netAllTimeout 1 (dns_name_from_text "a") 28).1 =
        RRes.notFound → emptyCollected.lookup "AAAA" = some []) ∧
    ((lookup netAllTimeout 1 (dns_name_from_text "a") 15).1 =
        RRes.notFound → emptyCollected.lookup "MX" = some []) :=
  claim8_thm netAllTimeout 1 "a" emptyCollected 52 (by rfl)

/-- C9: the scan reassigns the query-name variable to the stripped string
form of every scanned answer record before checking its type (first
conjunct); consequently, when the first server's answer records all fail
to match the requested type and none is a CNAME, and the second server
then returns a referral, the resolver recurses over the extracted glue
with the LAST scanned record's stripped string as the query name — the
name originally asked for is lost (second conjunct). -/
theorem claim9_thm (net : Net) (fuel : Nat) (qname : String)
    (qtype : Nat) (s1 s2 : String) (qr1 qr2 : Response)
    (recs : List RRecord)
    (hnet1 : net s1 qname qtype = .response qr1)
    (hflat : qr1.answer.flatMap RRSet.records = recs)
    (hne : recs ≠ [])
    (hskip : ∀ r ∈ recs, r.rdtype ≠ qtype ∧ r.rdtype ≠ 5)
    (hnet2 : net s2 qname qtype = .response qr2)
    (ha2 : qr2.answer = []) (hadd2 : qr2.additional ≠ []) :
    (∀ (t : String) (rec : RRecord) (rest : List RRecord),
      rec.rdtype ≠ qtype → rec.rdtype ≠ 5 →
      scanRecords qtype t (rec :: rest) =
        scanRecords qtype (stripLast rec.text) rest) ∧
    recursive_dns_lookup net (fuel + 1) qname qtype [s1, s2] =
      ((recursive_dns_lookup net fuel
          (stripLast (recs.getLastD ⟨0, "", 0, ""⟩).text) qtype
          (glueOfAdditional qr2.additional)).1,
       (recursive_dns_lookup net fuel
          (stripLast (recs.getLastD ⟨0, "", 0, ""⟩).text) qtype
          (glueOfAdditional qr2.additional)).2 + 2) := by
  constructor
  · intro t rec rest h1 h2
    exact scanRecords_skip qtype t rec rest h1 h2
  · have hane1 : qr1.answer ≠ [] := by
      intro h0
      rw [h0] at hflat
      simp only [List.flatMap_nil] at hflat
      exact hne hflat.symm
    have hscan : scanRecords qtype qname (qr1.answer.flatMap RRSet.records) =
        ScanOutcome.noStep
          (stripLast (recs.getLastD ⟨0, "", 0, ""⟩).text) := by
      rw [hflat]
      exact scanRecords_all_skip qtype recs hne hskip qname
    show serverLoopAux net (recursive_dns_lookup net fuel) qname qtype
        [s1, s2] qname = _
    simp [serverLoopAux, hnet1, hane1, hscan, hnet2, ha2, hadd2]

/-- C9 (witness): the `netMutatedName` scenario instantiates the theorem:
the TXT record "sometext." scanned at the first server becomes the query
name of the referral recursion triggered by the second server, which then
reaches the record served only for "sometext". -/
theorem claim9_witness :
    recursive_dns_lookup netMutatedName 2 "orig." 1 ["1.1.1.1", "2.2.2.2"] =
      ((recursive_dns_lookup netMutatedName 1 "sometext" 1
          (glueOfAdditional [⟨"ns.", [], "ns. 3600 IN A 9.9.9.9"⟩])).1,
       (recursive_dns_lookup netMutatedName 1 "sometext" 1
          (glueOfAdditional [⟨"ns.", [], "ns. 3600 IN A 9.9.9.9"⟩])).2 + 2) :=
  (claim9_thm netMutatedName 1 "orig." 1 "1.1.1.1" "2.2.2.2"
    ⟨[⟨"orig.", [⟨16, "sometext.", 0, ""⟩], "t"⟩], []⟩
    ⟨[], [⟨"ns.", [], "ns. 3600 IN A 9.9.9.9"⟩]⟩
    [⟨16, "sometext.", 0, ""⟩]
    rfl rfl (by simp) (by decide) rfl rfl (by simp)).2
